import Mathlib

/-
Verification of the locknex identity-service authorization and
session-integrity subsystem.

The Python services are shallowly embedded: SQLAlchemy rows become Lean
structures, the database becomes an explicit `DB` record of lists, every
stateful operation becomes a function `DB → ... → DB × Except Err α`
(exceptions are `Err` values, the post-state is always returned), and
timestamps are UTC epoch seconds as `Nat` (python-jose compares integer
second timestamps; datetime values are totally ordered instants, naive
values are interpreted as UTC exactly as the services do).
UUID surrogate keys are modelled as `Nat` with their decimal rendering
standing in for `str(uuid)`.
-/

namespace Locknex

/-- Staff roles, from app/models/staff_model.py `StaffRole`. -/
inductive StaffRole
  | SUPERUSER
  | ADMIN
  | SUPPORT
  | COMPLIANCE
  | MANAGER
  | GENERAL
deriving DecidableEq, Repr

/-- Staff departments, from app/models/staff_model.py `Department`. -/
inductive Department
  | SUPERUSER
  | FINANCE
  | MARKETING
  | SUPPORT
  | COMPLIANCE
  | MANAGEMENT
  | GENERAL
deriving DecidableEq, Repr

/-- User lifecycle status, from app/models/user_model.py `UserStatus`. -/
inductive UserStatus
  | ACTIVE
  | INACTIVE
  | SUSPENDED
  | PENDING_KYC
  | KYC_REJECTED
deriving DecidableEq, Repr

/-- A Staff row, from app/models/staff_model.py. -/
structure Staff where
  id : Nat
  user_id : Nat
  role : StaffRole
  department : Department
deriving DecidableEq, Repr

/-- A User row, from app/models/user_model.py (fields the core flows read). -/
structure User where
  id : Nat
  username : String
  email : String
  hashed_password : String
  status : UserStatus
  is_superuser : Bool
  staff_profile : Option Staff
deriving DecidableEq, Repr

/-- A Session row, from app/models/session_model.py.  `user_id` is nullable
(the column has no `nullable=False`), which matters for user deletion. -/
structure Session where
  id : Nat
  user_id : Option Nat
  refresh_token : String
  user_agent : Option String
  ip_address : Option String
  is_valid : Bool
  expires_at : Nat
deriving DecidableEq, Repr

/-- An APIKey row, from app/models/api_key_model.py (fields the claims read). -/
structure APIKey where
  id : Nat
  user_id : Option Nat
  key_hash : String
  is_active : Bool
deriving DecidableEq, Repr

/-- An ActivityLog row, from app/models/activity_log_model.py. -/
structure ActivityLog where
  user_id : Option Nat
  activity_type : String
  description : Option String
deriving DecidableEq, Repr

/-- A KYCVerification row, from app/models/kyc_model.py (identity only). -/
structure KYCVerification where
  id : Nat
  user_id : Nat
deriving DecidableEq, Repr

/-- The relational store: one list per table plus a surrogate-id counter. -/
structure DB where
  users : List User
  staffs : List Staff
  sessions : List Session
  api_keys : List APIKey
  activity_logs : List ActivityLog
  kyc_verifications : List KYCVerification
  next_id : Nat
deriving DecidableEq, Repr

/-- Failure values: `http` embeds fastapi `HTTPException(status_code, detail)`;
`integrity` embeds a storage-layer exception (e.g. a unique-constraint
violation) that propagates uncaught past the HTTP taxonomy. -/
inductive Err
  | http (code : Nat) (detail : String)
  | integrity (msg : String)
deriving DecidableEq, Repr

/-- HTTP status of a result: `none` for success, `some c` for an
`HTTPException` with status `c`, `some 500` for a raw storage error. -/
def errStatus {α : Type} : Except Err α → Option Nat
  | Except.ok _ => none
  | Except.error (Err.http c _) => some c
  | Except.error (Err.integrity _) => some 500

/-- Boolean success test for `Except` results. -/
def isOkE {α : Type} : Except Err α → Bool
  | Except.ok _ => true
  | Except.error _ => false

/-
Decimal serialization of Nat, standing in for Python str()/UUID() and for
the integer rendering of jwt claims.  Defined with explicit fuel so the
kernel can evaluate it on concrete inputs.
-/

/-- Little-endian base-10 digits of `n`, with `fuel ≥ n` steps available. -/
def natDigitsF : Nat → Nat → List Nat
  | 0, _ => []
  | fuel + 1, n => if n = 0 then [] else n % 10 :: natDigitsF fuel (n / 10)

/-- Little-endian base-10 digits of `n`. -/
def natDigits (n : Nat) : List Nat := natDigitsF n n

/-- Value of a little-endian digit list. -/
def undigits : List Nat → Nat
  | [] => 0
  | d :: ds => d + 10 * undigits ds

theorem undigits_natDigitsF : ∀ (fuel n : Nat), n ≤ fuel →
    undigits (natDigitsF fuel n) = n := by
  intro fuel
  induction fuel with
  | zero =>
    intro n h
    have hn : n = 0 := Nat.le_zero.mp h
    subst hn
    rfl
  | succ f ih =>
    intro n h
    by_cases h0 : n = 0
    · subst h0
      rfl
    · have hdiv : n / 10 ≤ f := by omega
      rw [natDigitsF]
      simp only [h0, if_false]
      rw [undigits, ih (n / 10) hdiv]
      omega

theorem undigits_natDigits (n : Nat) : undigits (natDigits n) = n :=
  undigits_natDigitsF n n (Nat.le_refl n)

theorem natDigitsF_lt : ∀ (fuel n d : Nat), d ∈ natDigitsF fuel n → d < 10 := by
  intro fuel
  induction fuel with
  | zero =>
    intro n d h
    simp [natDigitsF] at h
  | succ f ih =>
    intro n d h
    rw [natDigitsF] at h
    by_cases h0 : n = 0
    · simp [h0] at h
    · simp only [h0, if_false, List.mem_cons] at h
      rcases h with h | h
      · subst h
        exact Nat.mod_lt n (by omega)
      · exact ih (n / 10) d h

/-- The characters of the decimal rendering, most-significant first. -/
def natChars (n : Nat) : List Char := ((natDigits n).map Nat.digitChar).reverse

/-- Decimal rendering of `n`, the model of Python `str` on ids/integers.
(Zero renders as the empty string; ids and timestamps are positive.) -/
def natStr (n : Nat) : String := String.mk (natChars n)

/-- Numeric value of a decimal digit character. -/
def charVal (c : Char) : Nat := c.toNat - 48

/-- Test for a decimal digit character. -/
def isDigitCh (c : Char) : Bool := decide (48 ≤ c.toNat) && decide (c.toNat ≤ 57)

theorem charVal_digitChar (d : Nat) (h : d < 10) :
    charVal (Nat.digitChar d) = d := by
  interval_cases d <;> rfl

theorem isDigitCh_digitChar (d : Nat) (h : d < 10) :
    isDigitCh (Nat.digitChar d) = true := by
  interval_cases d <;> rfl

/-- Parse of a decimal string, the model of Python `int`/`UUID` parsing:
fails unless every character is a digit. -/
def natParse (s : String) : Option Nat :=
  if s.data.all isDigitCh then some (undigits ((s.data.reverse).map charVal))
  else none

theorem natParse_natStr (n : Nat) : natParse (natStr n) = some n := by
  have hall : (natChars n).all isDigitCh = true := by
    rw [List.all_eq_true]
    intro c hc
    simp only [natChars, List.mem_reverse, List.mem_map] at hc
    obtain ⟨d, hd, rfl⟩ := hc
    exact isDigitCh_digitChar d (natDigitsF_lt n n d hd)
  have hdata : (natStr n).data = natChars n := rfl
  rw [natParse, hdata, hall, if_pos rfl]
  congr 1
  have hrev : (natChars n).reverse = (natDigits n).map Nat.digitChar := by
    simp [natChars]
  rw [hrev, List.map_map]
  have hmap : (natDigits n).map (charVal ∘ Nat.digitChar) = natDigits n := by
    have hpt : ∀ d ∈ natDigits n, (charVal ∘ Nat.digitChar) d = id d := by
      intro d hd
      simp only [Function.comp_apply, id_eq]
      exact charVal_digitChar d (natDigitsF_lt n n d hd)
    rw [List.map_congr_left hpt, List.map_id]
  rw [hmap, undigits_natDigits]

theorem natStr_injective : Function.Injective natStr := by
  intro a b h
  have h2 := congrArg natParse h
  rw [natParse_natStr, natParse_natStr] at h2
  exact Option.some.inj h2

theorem natChars_injective : Function.Injective natChars := by
  intro a b h
  exact natStr_injective (congrArg String.mk h)

/-
Token Codec, from app/utils/jwt.py and python-jose.  A token string is the
deterministic serialization of its claims dict signed with the fixed
process-wide secret; the model renders it as header.sub-claim.exp-claim
(the signature, a deterministic function of the payload and the fixed
secret, is elided).  jose's encode is injective on claims, which is the
only property of the byte format the code relies on.
-/

/-- Serialized signed token carrying subject claim `sub` and expiry claim
`exp` (UTC epoch seconds), the model of `jose.jwt.encode`. -/
def jwt_encode (sub : String) (exp : Nat) : String :=
  "eyJhbGciOiJIUzI1NiJ9." ++ sub ++ "." ++ natStr exp

/-- app/utils/jwt.py `create_access_token`: token for claims
`data = set sub`, expiry `now + delta` (default delta 900s; login passes 1800s). -/
def create_access_token (sub : String) (now delta : Nat) : String :=
  jwt_encode sub (now + delta)

/-- app/utils/jwt.py `create_refresh_token`: same encoding, expiry
`now + delta` (default delta 604800s = 7 days). -/
def create_refresh_token (sub : String) (now delta : Nat) : String :=
  jwt_encode sub (now + delta)

/-- The claims a validly-signed token decodes back to under
`jose.jwt.decode`: optional subject and integer expiry. -/
structure TokenClaims where
  sub : Option String
  exp : Nat
deriving DecidableEq, Repr

/-- Claims embedded by `create_access_token`: subject plus `exp = now + delta`. -/
def access_token_claims (sub : String) (now delta : Nat) : TokenClaims :=
  { sub := some sub, exp := now + delta }

/-- jose `jwt.decode` expiry validation (leeway 0): raises
`ExpiredSignatureError` iff the `exp` claim is strictly before `now`. -/
def jose_decode (claims : TokenClaims) (now : Nat) : Except Err TokenClaims :=
  if claims.exp < now then Except.error (Err.http 401 "Token has expired")
  else Except.ok claims

/-- app/utils/current_user.py `get_current_user`, token-verification part
(lines 35-53): jose decode, then extraction and UUID-parse of the `sub`
claim.  The subsequent user fetch and ACTIVE check act on the store, not
the token, and are outside the codec. -/
def get_current_user_sub (claims : TokenClaims) (now : Nat) : Except Err Nat :=
  match jose_decode claims now with
  | Except.error e => Except.error e
  | Except.ok p =>
    match p.sub with
    | none => Except.error (Err.http 401 "Could not validate credentials")
    | some s =>
      match natParse s with
      | none => Except.error (Err.http 401 "Could not validate credentials")
      | some uid => Except.ok uid

/-
Restriction Engine, from app/services/restriction_service.py.
-/

/-- app/services/restriction_service.py `SUPPORTED_ACTIONS`. -/
def SUPPORTED_ACTIONS : List String := ["view", "edit", "delete", "create"]

/-- `RestrictionService._superuser_rules`: only the superuser acting on
their own record, and even then `edit` is denied. -/
def superuser_rules (actor target : Staff) (action : String) : Except Err Unit :=
  if actor.id ≠ target.id then
    Except.error (Err.http 403 "You cannot perform actions on another superuser.")
  else if action = "edit" then
    Except.error (Err.http 403 "Superuser role and department cannot be edited.")
  else Except.ok ()

/-- `RestrictionService._admin_rules`: only a superuser may manage admins. -/
def admin_rules (actor target : Staff) (action : String) : Except Err Unit :=
  if actor.role = StaffRole.SUPERUSER then Except.ok ()
  else Except.error (Err.http 403 "Only superusers can manage admins.")

/-- `RestrictionService._normal_staff_rules`: admins and superusers may
manage normal staff. -/
def normal_staff_rules (actor target : Staff) (action : String) : Except Err Unit :=
  if actor.role = StaffRole.ADMIN then Except.ok ()
  else if actor.role = StaffRole.SUPERUSER then Except.ok ()
  else Except.error (Err.http 403 "You do not have permission to manage this staff member.")

/-- `RestrictionService.enforce`: rejects unsupported actions with HTTP 400
(source detail text: Unsupported action quoted-action), then dispatches on
the target role. -/
def enforce (actor target : Staff) (action : String) : Except Err Unit :=
  if action ∉ SUPPORTED_ACTIONS then
    Except.error (Err.http 400 ("Unsupported action " ++ action ++ "."))
  else if target.role = StaffRole.SUPERUSER then superuser_rules actor target action
  else if target.role = StaffRole.ADMIN then admin_rules actor target action
  else normal_staff_rules actor target action

/-- `RestrictionService.ensure_single_superuser`: HTTP 400 if a SUPERUSER
role row exists and SUPERUSER role is requested, then HTTP 400 if a
SUPERUSER department row exists and SUPERUSER department is requested. -/
def ensure_single_superuser (staffs : List Staff) (role : StaffRole)
    (department : Department) : Except Err Unit :=
  if role = StaffRole.SUPERUSER ∧ ∃ s ∈ staffs, s.role = StaffRole.SUPERUSER then
    Except.error (Err.http 400 "A superuser already exists.")
  else if department = Department.SUPERUSER ∧
      ∃ s ∈ staffs, s.department = Department.SUPERUSER then
    Except.error (Err.http 400 "A superuser department already exists.")
  else Except.ok ()

/-
Activity Audit Sink, from app/utils/activity_logger.py.
-/

/-- app/utils/activity_logger.py `log_activity`.  Parameter order follows
the Python signature: `(db, target_user, activity_type, ..., current_user,
**kwargs)`.  If `current_user` is absent the write is skipped entirely;
with both users present the Restriction Engine is consulted with action
view_logs on their staff profiles (attribute access on a missing profile
raises); otherwise one ActivityLog row keyed to `current_user` is
committed. -/
def log_activity (db : DB) (target_user : Option User) (activity_type : String)
    (current_user : Option User) (description : Option String) :
    DB × Except Err (Option ActivityLog) :=
  match current_user with
  | none => (db, Except.ok none)
  | some cu =>
    let gate : Except Err Unit :=
      match target_user with
      | none => Except.ok ()
      | some tu =>
        match cu.staff_profile, tu.staff_profile with
        | some a, some t => enforce a t "view_logs"
        | _, _ => Except.error (Err.integrity "AttributeError: staff_profile is None")
    match gate with
    | Except.error e => (db, Except.error e)
    | Except.ok _ =>
      let row : ActivityLog :=
        { user_id := some cu.id, activity_type := activity_type,
          description := description }
      ({ db with activity_logs := db.activity_logs ++ [row] }, Except.ok (some row))

/-
Session Store, from app/services/session_service.py.
-/

/-- Payload of `SessionCreate` (app/schemas/session_schema.py) after the
service coerces `user_id` and normalizes a naive `expires_at` to UTC
(timestamps here are already absolute UTC instants). -/
structure SessionCreate where
  user_id : Nat
  refresh_token : String
  user_agent : Option String
  ip_address : Option String
  expires_at : Nat
deriving DecidableEq, Repr

/-- Lookup of the unique row matching
`filter_by(user_id=..., refresh_token=..., is_valid=True)`; the unique
index on `refresh_token` makes at most one row match. -/
def findValidSession (sessions : List Session) (uid : Nat) (tok : String) :
    Option Session :=
  sessions.find? fun s =>
    decide (s.user_id = some uid ∧ s.refresh_token = tok ∧ s.is_valid = true)

/-- `SessionService.create_session`: insert the row and commit (the unique
index on `sessions.refresh_token` rejects a duplicate token, which the
`except` branch rolls back and re-raises), then audit.  Both audit calls
pass `actor` positionally, so in `log_activity` it binds to `target_user`
while `current_user` stays `None`. -/
def create_session (db : DB) (session_in : SessionCreate) (actor : Option User) :
    DB × Except Err Session :=
  if ∃ s ∈ db.sessions, s.refresh_token = session_in.refresh_token then
    match log_activity db actor "session_create_error" none
        (some "IntegrityError") with
    | (db1, Except.error e) => (db1, Except.error e)
    | (db1, Except.ok _) =>
      (db1, Except.error (Err.integrity
        "duplicate key value violates unique index on sessions.refresh_token"))
  else
    let s : Session :=
      { id := db.next_id, user_id := some session_in.user_id,
        refresh_token := session_in.refresh_token,
        user_agent := session_in.user_agent,
        ip_address := session_in.ip_address,
        is_valid := true, expires_at := session_in.expires_at }
    let db1 : DB :=
      { db with sessions := db.sessions ++ [s], next_id := db.next_id + 1 }
    match log_activity db1 actor "session_create_success" none
        (some "Session created") with
    | (db2, Except.error e) => (db2, Except.error e)
    | (db2, Except.ok _) => (db2, Except.ok s)

/-- `SessionService.invalidate_session`: look up the valid row for
`(user_id, refresh_token)`; absent gives HTTP 404, otherwise
`UPDATE ... WHERE id = session.id SET is_valid = false` and commit.
Audit calls pass `actor` positionally (binds to `target_user`). -/
def invalidate_session (db : DB) (refresh_token : String) (user_id : Nat)
    (actor : Option User) : DB × Except Err Unit :=
  match findValidSession db.sessions user_id refresh_token with
  | none =>
    match log_activity db actor "session_invalidate_failed" none
        (some "No active session found") with
    | (db1, Except.error e) => (db1, Except.error e)
    | (db1, Except.ok _) =>
      (db1, Except.error (Err.http 404 "Session not found or already invalidated"))
  | some s =>
    let db1 : DB :=
      { db with sessions := db.sessions.map fun x =>
          if x.id = s.id then { x with is_valid := false } else x }
    match log_activity db1 actor "session_invalidate_success" none
        (some "Session invalidated") with
    | (db2, Except.error e) => (db2, Except.error e)
    | (db2, Except.ok _) => (db2, Except.ok ())

/-- `SessionService.validate_refresh_token`: look up the valid row for
`(user_id, refresh_token)`; absent gives HTTP 401, a stored expiry
strictly before `now` gives the identical HTTP 401, otherwise the row is
returned.  Audit calls pass `actor` positionally (binds to `target_user`). -/
def validate_refresh_token (db : DB) (refresh_token : String) (user_id : Nat)
    (actor : Option User) (now : Nat) : DB × Except Err Session :=
  match findValidSession db.sessions user_id refresh_token with
  | none =>
    match log_activity db actor "session_validate_failed" none
        (some "Invalid refresh token") with
    | (db1, Except.error e) => (db1, Except.error e)
    | (db1, Except.ok _) =>
      (db1, Except.error (Err.http 401 "Invalid or expired refresh token"))
  | some s =>
    if s.expires_at < now then
      match log_activity db actor "session_validate_failed" none
          (some "Expired refresh token") with
      | (db1, Except.error e) => (db1, Except.error e)
      | (db1, Except.ok _) =>
        (db1, Except.error (Err.http 401 "Invalid or expired refresh token"))
    else
      match log_activity db actor "session_validate_success" none
          (some "Valid refresh token") with
      | (db1, Except.error e) => (db1, Except.error e)
      | (db1, Except.ok _) => (db1, Except.ok s)

/-
Auth Orchestrator, from app/services/auth_service.py.
-/

/-- Model of passlib verify against the stored argon2 hash (the spec treats
hashing as an opaque one-way hash-plus-verify capability). -/
def verify_password (plain hashed : String) : Bool :=
  hashed == "argon2id$" ++ plain

/-- Model of passlib hash. -/
def hash_password (plain : String) : String := "argon2id$" ++ plain

/-- `AuthService.authenticate_user`: lookup by username or email, then
password check; both failures give the identical HTTP 401. -/
def authenticate_user (db : DB) (identifier password : String) : Except Err User :=
  match db.users.find? (fun v => v.username == identifier || v.email == identifier) with
  | none => Except.error (Err.http 401 "Invalid login credentials")
  | some u =>
    if verify_password password u.hashed_password then Except.ok u
    else Except.error (Err.http 401 "Invalid login credentials")

/-- Result of a successful login. -/
structure LoginResult where
  user : User
  access_token : String
  refresh_token : String
deriving DecidableEq, Repr

/-- `AuthService.login`: authenticate, block SUSPENDED with HTTP 403, issue
an access token (30 min) and refresh token (7 days) for `sub = str(user.id)`,
persist the session with expiry `now + 7 days`, return both tokens.
`now` is the single current instant of the request. -/
def login (db : DB) (identifier password : String)
    (user_agent ip : Option String) (now : Nat) : DB × Except Err LoginResult :=
  match authenticate_user db identifier password with
  | Except.error e => (db, Except.error e)
  | Except.ok u =>
    if u.status = UserStatus.SUSPENDED then
      (db, Except.error (Err.http 403 "Your account is suspended"))
    else
      let access_token := create_access_token (natStr u.id) now 1800
      let refresh_token := create_refresh_token (natStr u.id) now 604800
      let session_in : SessionCreate :=
        { user_id := u.id, refresh_token := refresh_token,
          user_agent := user_agent, ip_address := ip,
          expires_at := now + 604800 }
      match create_session db session_in (some u) with
      | (db1, Except.error e) => (db1, Except.error e)
      | (db1, Except.ok _) =>
        (db1, Except.ok
          { user := u, access_token := access_token, refresh_token := refresh_token })

/-
User deletion, from app/services/user_service.py `delete_user` and the
relationship declarations in app/models/user_model.py.  SQLAlchemy
semantics for `db.delete(user)`: relationships declared with
cascade all-delete-orphan (`kyc_verifications`, `activity_logs`) delete
their child rows; relationships with the default cascade and
`passive_deletes` unset (`sessions`, `api_keys`) keep their child rows but
null out the foreign key before the parent row is deleted (so the
`ondelete=CASCADE` declared on those columns finds nothing to delete).
-/

/-- `UserService.delete_user`: superuser guard, then ORM delete with the
cascade semantics above.  The audit call passes `user` positionally
(binds to `target_user`; `current_user` stays `None`, write skipped). -/
def delete_user (db : DB) (user : User) (current_user : User) :
    DB × Except Err Unit :=
  if user.is_superuser = true ∧ user.id ≠ current_user.id then
    (db, Except.error (Err.http 403 "Superuser cannot be deleted by others"))
  else
    let db1 : DB :=
      { db with
        users := db.users.filter fun v => decide (v.id ≠ user.id)
        kyc_verifications :=
          db.kyc_verifications.filter fun k => decide (k.user_id ≠ user.id)
        activity_logs :=
          db.activity_logs.filter fun l => decide (l.user_id ≠ some user.id)
        sessions := db.sessions.map fun s =>
          if s.user_id = some user.id then { s with user_id := none } else s
        api_keys := db.api_keys.map fun a =>
          if a.user_id = some user.id then { a with user_id := none } else a }
    match log_activity db1 (some user) "delete_user_success" none
        (some "User deleted") with
    | (db2, Except.error e) => (db2, Except.error e)
    | (db2, Except.ok _) => (db2, Except.ok ())

/-
Reference definitions written from the spec wording, for the refinement
claims, plus concrete fixtures.
-/

/-- The three-tier decision of claim C2, written from the spec wording of
section 4.3: target SUPERUSER allows only the same staff record and never
`edit`; target ADMIN allows only a SUPERUSER actor; any other target
allows ADMIN or SUPERUSER actors. -/
def reference_allows (actor target : Staff) (action : String) : Bool :=
  if target.role = StaffRole.SUPERUSER then
    decide (actor.id = target.id) && decide (action ≠ "edit")
  else if target.role = StaffRole.ADMIN then
    decide (actor.role = StaffRole.SUPERUSER)
  else
    decide (actor.role = StaffRole.ADMIN) || decide (actor.role = StaffRole.SUPERUSER)

/-- Modelled from the spec: the `Conflict` class of the error taxonomy
(spec section 7) surfaces at the HTTP boundary as status 409; the spec
lists it as distinct from `BadRequest`. -/
def conflictStatus : Nat := 409

/-- Fixture: the superuser staff row. -/
def suStaff : Staff := ⟨1, 1, StaffRole.SUPERUSER, Department.SUPERUSER⟩

/-- Fixture: an ordinary staff row. -/
def genStaff : Staff := ⟨2, 2, StaffRole.GENERAL, Department.GENERAL⟩

/-- Fixture: the superuser account, owning `suStaff`. -/
def suUser : User :=
  ⟨1, "root", "root@example.com", hash_password "rootpw", UserStatus.ACTIVE,
    true, some suStaff⟩

/-- Fixture: an ordinary staff account, owning `genStaff`. -/
def genUser : User :=
  ⟨2, "bob", "bob@example.com", hash_password "bobpw", UserStatus.ACTIVE,
    false, some genStaff⟩

/-- Fixture: the empty store. -/
def emptyDB : DB := ⟨[], [], [], [], [], [], 0⟩

theorem log_activity_none (db : DB) (tu : Option User) (ty : String)
    (d : Option String) : log_activity db tu ty none d = (db, Except.ok none) :=
  rfl

/-- C1: the claim says each branch of `create_session`,
`invalidate_session` and `validate_refresh_token` with an actor supplied
emits exactly one audit event.  In fact every branch writes zero
activity-log rows: each call site passes `actor` positionally, so it binds
to `log_activity`'s `target_user` parameter while `current_user` stays
`None`, and `log_activity` then skips the write entirely. -/
theorem session_store_ops_skip_audit (db : DB) (inp : SessionCreate) (u : User)
    (tok : String) (uid : Nat) (now : Nat) :
    ((create_session db inp (some u)).1).activity_logs = db.activity_logs ∧
    ((invalidate_session db tok uid (some u)).1).activity_logs = db.activity_logs ∧
    ((validate_refresh_token db tok uid (some u) now).1).activity_logs =
      db.activity_logs := by
  refine ⟨?_, ?_, ?_⟩
  · unfold create_session
    by_cases hdup : ∃ s ∈ db.sessions, s.refresh_token = inp.refresh_token
    · simp [hdup, log_activity_none]
    · simp [hdup, log_activity_none]
  · unfold invalidate_session
    cases hfind : findValidSession db.sessions uid tok <;>
      simp [hfind, log_activity_none]
  · unfold validate_refresh_token
    cases hfind : findValidSession db.sessions uid tok
    · simp [hfind, log_activity_none]
    · case some s =>
        by_cases hexp : s.expires_at < now <;>
          simp [hfind, hexp, log_activity_none]

/-- C2: for supported actions, `enforce` is exactly the three-tier
reference decision: success iff the reference allows, HTTP 403 otherwise. -/
theorem enforce_matches_three_tier (actor target : Staff) (action : String)
    (h : action ∈ SUPPORTED_ACTIONS) :
    errStatus (enforce actor target action) =
      (if reference_allows actor target action then none else some 403) := by
  unfold enforce reference_allows
  rw [if_neg (fun hn => hn h)]
  rcases actor with ⟨aid, auid, arole, adep⟩
  rcases target with ⟨tid, tuid, trole, tdep⟩
  simp only
  cases trole <;> cases arole <;>
    by_cases hid : aid = tid <;>
    by_cases hed : action = "edit" <;>
    simp [superuser_rules, admin_rules, normal_staff_rules, errStatus, hid, hed]

theorem enforce_matches_three_tier_witness :
    "view" ∈ SUPPORTED_ACTIONS ∧
    errStatus (enforce ⟨1, 1, StaffRole.ADMIN, Department.GENERAL⟩
        ⟨2, 2, StaffRole.GENERAL, Department.GENERAL⟩ "view") =
      (if reference_allows ⟨1, 1, StaffRole.ADMIN, Department.GENERAL⟩
          ⟨2, 2, StaffRole.GENERAL, Department.GENERAL⟩ "view"
       then none else some 403) :=
  ⟨by decide, enforce_matches_three_tier _ _ _ (by decide)⟩

/-- C3: the claim says `view_logs` is in the engine's supported decision
domain and a denial surfaces as Forbidden.  In fact `view_logs` is not in
`SUPPORTED_ACTIONS`, so whenever `log_activity` is invoked with both users
present and each owning a Staff profile it fails with HTTP 400
(Unsupported action) for every actor/target pair, never reaches the
three-tier rules, and never writes the row. -/
theorem log_activity_view_logs_rejected (db : DB) (cu tu : User) (a t : Staff)
    (ty : String) (d : Option String)
    (ha : cu.staff_profile = some a) (ht : tu.staff_profile = some t) :
    log_activity db (some tu) ty (some cu) d =
      (db, Except.error (Err.http 400 "Unsupported action view_logs.")) := by
  have hgate : enforce a t "view_logs" =
      Except.error (Err.http 400 "Unsupported action view_logs.") := by
    unfold enforce
    rw [if_pos (by decide)]
    rfl
  simp [log_activity, ha, ht, hgate]

theorem log_activity_view_logs_rejected_witness :
    suUser.staff_profile = some suStaff ∧
    genUser.staff_profile = some genStaff ∧
    log_activity emptyDB (some genUser) "get_user_success" (some suUser) none =
      (emptyDB, Except.error (Err.http 400 "Unsupported action view_logs.")) :=
  ⟨rfl, rfl,
    log_activity_view_logs_rejected emptyDB suUser genUser suStaff genStaff
      "get_user_success" none rfl rfl⟩

/-- C7: a token issued by the codec with subject `uid` and embedded expiry
`t + d` verifies to its original subject at any time at or before the
expiry, and fails with the token-expired HTTP 401 at any time strictly
after it. -/
theorem token_verify_expiry (uid t d now : Nat) :
    get_current_user_sub (access_token_claims (natStr uid) t d) now =
      (if t + d < now then Except.error (Err.http 401 "Token has expired")
       else Except.ok uid) := by
  unfold get_current_user_sub jose_decode access_token_claims
  by_cases h : t + d < now
  · simp [h]
  · simp [h, natParse_natStr]

/-- C8: the single-superuser check fails exactly when a SUPERUSER role row
exists and SUPERUSER role is requested, or a SUPERUSER department row
exists and SUPERUSER department is requested — but with HTTP 400
(BadRequest), not the 409 Conflict class the claim names; it succeeds
when no such row exists. -/
theorem ensure_single_superuser_condition (staffs : List Staff)
    (role : StaffRole) (department : Department) :
    errStatus (ensure_single_superuser staffs role department) =
      (if (role = StaffRole.SUPERUSER ∧
            ∃ s ∈ staffs, s.role = StaffRole.SUPERUSER) ∨
          (department = Department.SUPERUSER ∧
            ∃ s ∈ staffs, s.department = Department.SUPERUSER)
       then some 400 else none) := by
  unfold ensure_single_superuser
  by_cases h1 : role = StaffRole.SUPERUSER ∧
      ∃ s ∈ staffs, s.role = StaffRole.SUPERUSER
  · simp [h1, errStatus]
  · by_cases h2 : department = Department.SUPERUSER ∧
        ∃ s ∈ staffs, s.department = Department.SUPERUSER
    · simp [h1, h2, errStatus]
    · simp [h1, h2, errStatus]

/-- C8 counterexample: with one existing superuser row, requesting a second
SUPERUSER role fails with HTTP 400, not the 409 Conflict status of the
spec's Conflict error class. -/
theorem ensure_single_superuser_not_conflict :
    errStatus (ensure_single_superuser [suStaff] StaffRole.SUPERUSER
      Department.GENERAL) = some 400 ∧
    errStatus (ensure_single_superuser [suStaff] StaffRole.SUPERUSER
      Department.GENERAL) ≠ some conflictStatus := by
  decide

/-- C4 (amended): `validate_refresh_token` fails — with the one identical
HTTP 401 message in both cases — exactly when no valid row matches or the
matched row's expiry is strictly before the current time; an expiry equal
to the current instant is accepted.  The `Pairwise` hypothesis is the
unique index on `refresh_token`, under which `find?` agrees with the
service's `scalar_one_or_none` lookup. -/
theorem validate_error_characterization (db : DB) (tok : String) (uid : Nat)
    (actor : Option User) (now : Nat)
    (hwf : db.sessions.Pairwise (fun a b => a.refresh_token ≠ b.refresh_token)) :
    ((validate_refresh_token db tok uid actor now).2 =
        Except.error (Err.http 401 "Invalid or expired refresh token")) ↔
      (findValidSession db.sessions uid tok = none ∨
        ∃ s, findValidSession db.sessions uid tok = some s ∧
          s.expires_at < now) := by
  unfold validate_refresh_token
  cases hfind : findValidSession db.sessions uid tok with
  | none => simp [log_activity_none]
  | some s =>
    by_cases hexp : s.expires_at < now
    · simp [log_activity_none, hexp]
    · simp [log_activity_none, hexp]

theorem validate_error_characterization_witness :
    List.Pairwise (fun a b => a.refresh_token ≠ b.refresh_token)
      emptyDB.sessions ∧
    (((validate_refresh_token emptyDB "t" 1 none 0).2 =
        Except.error (Err.http 401 "Invalid or expired refresh token")) ↔
      (findValidSession emptyDB.sessions 1 "t" = none ∨
        ∃ s, findValidSession emptyDB.sessions 1 "t" = some s ∧
          s.expires_at < 0)) :=
  ⟨List.Pairwise.nil,
    validate_error_characterization emptyDB "t" 1 none 0 List.Pairwise.nil⟩

/-- C4 counterexample: a session whose stored expiry equals the current
instant is accepted, not rejected — the code tests strict `<`, so expiry
at-or-before now is not the failure condition the claim states. -/
theorem validate_accepts_expiry_at_now :
    (validate_refresh_token
        { emptyDB with sessions := [⟨0, some 1, "rtok", none, none, true, 100⟩] }
        "rtok" 1 none 100).2 =
      Except.ok ⟨0, some 1, "rtok", none, none, true, 100⟩ := by
  rfl

/-- C10: whenever `validate_refresh_token` fails, the store is left exactly
as it was — in particular an expired session row keeps `is_valid = true`
and is never auto-revoked by the validation path. -/
theorem validate_failure_leaves_state (db : DB) (tok : String) (uid : Nat)
    (actor : Option User) (now : Nat)
    (hfail : isOkE (validate_refresh_token db tok uid actor now).2 = false) :
    (validate_refresh_token db tok uid actor now).1 = db := by
  unfold validate_refresh_token
  cases hfind : findValidSession db.sessions uid tok with
  | none => simp [log_activity_none]
  | some s =>
    by_cases hexp : s.expires_at < now <;> simp [log_activity_none, hexp]

theorem validate_failure_leaves_state_witness :
    isOkE (validate_refresh_token emptyDB "t" 1 none 0).2 = false ∧
    (validate_refresh_token emptyDB "t" 1 none 0).1 = emptyDB :=
  ⟨rfl, validate_failure_leaves_state emptyDB "t" 1 none 0 rfl⟩

theorem findValidSession_after_flip (l : List Session) (uid : Nat) (tok : String)
    (hpw : l.Pairwise (fun a b => a.refresh_token ≠ b.refresh_token))
    (s : Session) (hfind : findValidSession l uid tok = some s) :
    findValidSession
      (l.map fun x => if x.id = s.id then { x with is_valid := false } else x)
      uid tok = none := by
  have hs_mem : s ∈ l := List.mem_of_find?_eq_some hfind
  have hs_pred := List.find?_some hfind
  rw [decide_eq_true_eq] at hs_pred
  obtain ⟨hsu, hst, hsv⟩ := hs_pred
  rw [findValidSession, List.find?_eq_none]
  intro y hy
  rw [List.mem_map] at hy
  obtain ⟨x, hx, rfl⟩ := hy
  rw [decide_eq_true_eq]
  rintro ⟨hyu, hyt, hyv⟩
  by_cases hid : x.id = s.id
  · rw [if_pos hid] at hyv
    exact Bool.false_ne_true hyv
  · rw [if_neg hid] at hyu hyt hyv
    have hxs : x ≠ s := fun he => hid (congrArg Session.id he)
    have hsym : Symmetric (fun a b : Session => a.refresh_token ≠ b.refresh_token) :=
      fun a b hab => fun he => hab he.symm
    have hne := (hpw.forall hsym) hx hs_mem hxs
    exact hne (hyt.trans hst.symm)

/-- C5: invalidating an existing valid session and immediately validating
the same `(userId, refreshToken)` always fails with the
invalid-or-expired HTTP 401.  The `Pairwise` hypothesis is the unique
index on `refresh_token`. -/
theorem invalidate_then_validate_fails (db : DB) (tok : String) (uid : Nat)
    (actor actor2 : Option User) (now : Nat)
    (hpw : db.sessions.Pairwise (fun a b => a.refresh_token ≠ b.refresh_token))
    (hok : (invalidate_session db tok uid actor).2 = Except.ok ()) :
    (validate_refresh_token (invalidate_session db tok uid actor).1
        tok uid actor2 now).2 =
      Except.error (Err.http 401 "Invalid or expired refresh token") := by
  unfold invalidate_session at hok ⊢
  cases hfind : findValidSession db.sessions uid tok with
  | none =>
    rw [hfind] at hok
    simp [log_activity_none] at hok
  | some s =>
    rw [hfind] at hok
    simp only [log_activity_none]
    unfold validate_refresh_token
    have hnone := findValidSession_after_flip db.sessions uid tok hpw s hfind
    simp [hnone, log_activity_none]

/-- Fixture: a store holding one valid session for user 1. -/
def oneSessionDB : DB :=
  { emptyDB with
    sessions := [⟨0, some 1, "rtok", none, none, true, 1000⟩], next_id := 1 }

theorem invalidate_then_validate_fails_witness :
    List.Pairwise (fun a b => a.refresh_token ≠ b.refresh_token)
      oneSessionDB.sessions ∧
    (invalidate_session oneSessionDB "rtok" 1 none).2 = Except.ok () ∧
    (validate_refresh_token (invalidate_session oneSessionDB "rtok" 1 none).1
        "rtok" 1 none 500).2 =
      Except.error (Err.http 401 "Invalid or expired refresh token") :=
  ⟨List.pairwise_singleton _ _, rfl,
    invalidate_then_validate_fails oneSessionDB "rtok" 1 none none 500
      (List.pairwise_singleton _ _) rfl⟩

theorem jwt_encode_ne_empty (sub : String) (e : Nat) : jwt_encode sub e ≠ "" := by
  intro h
  have h2 := congrArg String.data h
  rw [jwt_encode] at h2
  simp only [String.data_append] at h2
  rcases List.append_eq_nil.mp h2 with ⟨h3, _⟩
  rcases List.append_eq_nil.mp h3 with ⟨h4, _⟩
  rcases List.append_eq_nil.mp h4 with ⟨h5, _⟩
  exact absurd h5 (by decide)

theorem jwt_encode_inj_exp (sub : String) (e1 e2 : Nat)
    (h : jwt_encode sub e1 = jwt_encode sub e2) : e1 = e2 := by
  unfold jwt_encode at h
  have h2 := congrArg String.data h
  simp only [String.data_append] at h2
  have h3 := List.append_cancel_left h2
  exact natChars_injective h3

/-- Fixture: an active end-user account. -/
def aliceUser : User :=
  ⟨1, "alice", "a@test.com", hash_password "pw", UserStatus.ACTIVE, false, none⟩

/-- Fixture: a store holding only `aliceUser`. -/
def aliceDB : DB := { emptyDB with users := [aliceUser] }

/-- C6 (amended): when the lookup finds the user, the password verifies,
the status is not SUSPENDED, and no stored session already holds the
refresh token about to be issued, login succeeds with two non-empty,
mutually distinct tokens, and the returned refresh token differs from
every refresh token stored before the call (so a successful repeat login
never reuses one).  The freshness hypothesis is forced: the token is a
deterministic function of `(user, second)`, so a second login of the same
user within the same second collides on the unique `refresh_token` index
and fails instead of succeeding. -/
theorem login_issues_fresh_distinct_tokens (db : DB)
    (identifier password : String) (ua ip : Option String) (now : Nat) (u : User)
    (hfind : db.users.find?
      (fun v => v.username == identifier || v.email == identifier) = some u)
    (hpw : verify_password password u.hashed_password = true)
    (hst : u.status ≠ UserStatus.SUSPENDED)
    (hfresh : ∀ s ∈ db.sessions,
      s.refresh_token ≠ create_refresh_token (natStr u.id) now 604800) :
    ∃ r : LoginResult,
      (login db identifier password ua ip now).2 = Except.ok r ∧
      r.access_token ≠ "" ∧
      r.refresh_token ≠ "" ∧
      r.access_token ≠ r.refresh_token ∧
      ∀ s ∈ db.sessions, s.refresh_token ≠ r.refresh_token := by
  have hauth : authenticate_user db identifier password = Except.ok u := by
    unfold authenticate_user
    rw [hfind]
    simp [hpw]
  have hnodup : ¬ ∃ s ∈ db.sessions,
      s.refresh_token = create_refresh_token (natStr u.id) now 604800 := by
    rintro ⟨s, hs, he⟩
    exact hfresh s hs he
  refine ⟨⟨u, create_access_token (natStr u.id) now 1800,
      create_refresh_token (natStr u.id) now 604800⟩, ?_, ?_, ?_, ?_, ?_⟩
  · unfold login
    rw [hauth]
    simp only [if_neg hst]
    unfold create_session
    rw [if_neg hnodup]
    simp [log_activity_none]
  · exact jwt_encode_ne_empty _ _
  · exact jwt_encode_ne_empty _ _
  · intro h
    have := jwt_encode_inj_exp _ _ _ h
    omega
  · exact hfresh

theorem login_issues_fresh_distinct_tokens_witness :
    aliceDB.users.find?
      (fun v => v.username == "a@test.com" || v.email == "a@test.com") =
        some aliceUser ∧
    verify_password "pw" aliceUser.hashed_password = true ∧
    aliceUser.status ≠ UserStatus.SUSPENDED ∧
    (∃ r : LoginResult,
      (login aliceDB "a@test.com" "pw" none none 1000).2 = Except.ok r ∧
      r.access_token ≠ "" ∧
      r.refresh_token ≠ "" ∧
      r.access_token ≠ r.refresh_token ∧
      ∀ s ∈ aliceDB.sessions, s.refresh_token ≠ r.refresh_token) :=
  ⟨rfl, rfl, by decide,
    login_issues_fresh_distinct_tokens aliceDB "a@test.com" "pw" none none 1000
      aliceUser rfl rfl (by decide)
      (fun s hs => absurd hs (List.not_mem_nil s))⟩

/-- C6 counterexample: with a correct password and ACTIVE status, a first
login at second 1000 succeeds, but an immediate second login of the same
user at the same second fails (the deterministic refresh token collides
with the stored one on the unique index) — refuting the claim that login
always succeeds for such users. -/
theorem login_repeat_same_second_fails :
    isOkE (login aliceDB "a@test.com" "pw" none none 1000).2 = true ∧
    isOkE (login (login aliceDB "a@test.com" "pw" none none 1000).1
        "a@test.com" "pw" none none 1000).2 = false := by
  constructor <;> rfl

/-- Fixture rows owned by `genUser` (id 2). -/
def kycRow : KYCVerification := ⟨100, 2⟩

/-- Fixture activity-log row for user 2. -/
def logRow : ActivityLog := ⟨some 2, "login_success", none⟩

/-- Fixture session row for user 2. -/
def bobSession : Session := ⟨0, some 2, "btok", none, none, true, 1000⟩

/-- Fixture API key row for user 2. -/
def bobKey : APIKey := ⟨5, some 2, "kh", true⟩

/-- Fixture: a store with one row of each kind owned by `genUser`. -/
def bobDB : DB :=
  { emptyDB with
    users := [genUser]
    sessions := [bobSession]
    api_keys := [bobKey]
    activity_logs := [logRow]
    kyc_verifications := [kycRow]
    next_id := 1 }

/-- C9 (amended): user deletion removes the user's KYC rows and activity
logs; session and API-key rows all remain stored, but each one owned by
the deleted user has its `user_id` reference cleared to NULL by the ORM
(orphaned, not cascade-deleted) — not left byte-for-byte unchanged. -/
theorem delete_user_cascade_effects (db : DB) (u cu : User)
    (hok : (delete_user db u cu).2 = Except.ok ()) :
    (∀ k ∈ ((delete_user db u cu).1).kyc_verifications, k.user_id ≠ u.id) ∧
    (∀ l ∈ ((delete_user db u cu).1).activity_logs, l.user_id ≠ some u.id) ∧
    ((delete_user db u cu).1).sessions.length = db.sessions.length ∧
    ((delete_user db u cu).1).api_keys.length = db.api_keys.length ∧
    (∀ s ∈ db.sessions, s.user_id = some u.id →
      { s with user_id := none } ∈ ((delete_user db u cu).1).sessions) ∧
    (∀ a ∈ db.api_keys, a.user_id = some u.id →
      { a with user_id := none } ∈ ((delete_user db u cu).1).api_keys) := by
  unfold delete_user at hok ⊢
  by_cases hguard : u.is_superuser = true ∧ u.id ≠ cu.id
  · rw [if_pos hguard] at hok
    exact absurd hok (by simp)
  · rw [if_neg hguard]
    simp only [log_activity_none]
    refine ⟨?_, ?_, ?_, ?_, ?_, ?_⟩
    · intro k hk
      rw [List.mem_filter, decide_eq_true_eq] at hk
      exact hk.2
    · intro l hl
      rw [List.mem_filter, decide_eq_true_eq] at hl
      exact hl.2
    · simp
    · simp
    · intro s hs hsu
      have hmem := List.mem_map_of_mem
        (fun x : Session =>
          if x.user_id = some u.id then { x with user_id := none } else x) hs
      simpa [hsu] using hmem
    · intro a ha hau
      have hmem := List.mem_map_of_mem
        (fun x : APIKey =>
          if x.user_id = some u.id then { x with user_id := none } else x) ha
      simpa [hau] using hmem

theorem delete_user_cascade_effects_witness :
    (delete_user bobDB genUser genUser).2 = Except.ok () ∧
    ((∀ k ∈ ((delete_user bobDB genUser genUser).1).kyc_verifications,
        k.user_id ≠ genUser.id) ∧
      (∀ l ∈ ((delete_user bobDB genUser genUser).1).activity_logs,
        l.user_id ≠ some genUser.id) ∧
      ((delete_user bobDB genUser genUser).1).sessions.length =
        bobDB.sessions.length ∧
      ((delete_user bobDB genUser genUser).1).api_keys.length =
        bobDB.api_keys.length ∧
      (∀ s ∈ bobDB.sessions, s.user_id = some genUser.id →
        { s with user_id := none } ∈
          ((delete_user bobDB genUser genUser).1).sessions) ∧
      (∀ a ∈ bobDB.api_keys, a.user_id = some genUser.id →
        { a with user_id := none } ∈
          ((delete_user bobDB genUser genUser).1).api_keys)) :=
  ⟨rfl, delete_user_cascade_effects bobDB genUser genUser rfl⟩

theorem delete_user_changes_session_rows :
    ((delete_user bobDB genUser genUser).1).sessions ≠ bobDB.sessions ∧
    bobSession ∉ ((delete_user bobDB genUser genUser).1).sessions := by
  decide

end Locknex
